import Mathlib

/-!
# Verification of the Real-Time Team Task Management backend core

A shallow embedding of the task status state machine, the team membership
model, the team/task controller operations, the activity recorder calls and
the socket fan-out of the repository, together with theorems settling the
frozen claims about them.

Conventions of the embedding:
* Mongo ObjectIds, user ids and team ids are `String`s.
* JavaScript `undefined` for an optional field is `Option.none`; where the
  code distinguishes `undefined` from `null` (the task assignee in an update
  request) the request field is `Option (Option String)`: `none` = absent
  (undefined), `some none` = explicit `null`, `some (some u)` = a user id.
* Timestamps (`joinedAt`, `dueDate`) are `Nat`s; their values never influence
  control flow in the modelled code.
* Fallible controller operations return `Except` of an error enum whose
  constructors mirror the distinct `ResponseHandler` early returns.
* Persistence is modelled functionally: an operation receives the loaded
  entities and returns the entities as they are saved; an `Except.error`
  result means the early return fired before any `save()`, so nothing is
  persisted.
-/

namespace TaskMgmt

/-- `TaskStatus` enum from the task interface:
todo, in_progress, review, done. -/
inductive TaskStatus where
  | todo
  | inProgress
  | review
  | done
deriving DecidableEq, Repr

/-- `TaskPriority` enum from the task interface: low, medium, high, urgent. -/
inductive TaskPriority where
  | low
  | medium
  | high
  | urgent
deriving DecidableEq, Repr

/-- The wire string of a status, as interpolated into error messages. -/
def TaskStatus.wire : TaskStatus → String
  | .todo => "todo"
  | .inProgress => "in_progress"
  | .review => "review"
  | .done => "done"

/-- The `transitions` table of `taskSchema.methods.canTransitionTo`
(task model): for each current status, the array of statuses it may
move to. -/
def transitions : TaskStatus → List TaskStatus
  | .todo => [.inProgress, .done]
  | .inProgress => [.todo, .review, .done]
  | .review => [.inProgress, .done]
  | .done => [.todo, .inProgress, .review]

/-- `taskSchema.methods.canTransitionTo`: membership of the requested
status in the adjacency array of the current status
(`transitions[currentStatus]?.includes(newStatus) || false`). -/
def canTransitionTo (current newStatus : TaskStatus) : Bool :=
  (transitions current).contains newStatus

/-- `TeamMemberRole` enum from the team interface: owner, admin, member. -/
inductive TeamMemberRole where
  | owner
  | admin
  | member
deriving DecidableEq, Repr

/-- One entry of a team's `members` array (`teamMemberSchema`). -/
structure TeamMember where
  userId : String
  role : TeamMemberRole
  joinedAt : Nat
deriving DecidableEq, Repr

/-- The `Team` document: name, optional description, owner user id, and the
embedded `members` array. -/
structure Team where
  name : String
  description : Option String
  owner : String
  members : List TeamMember
deriving DecidableEq, Repr

/-- `teamSchema.methods.isMember`: `this.members.some(member =>
memberId === userId)`.  Note the method inspects only the `members`
array; the `owner` field is not consulted. -/
def Team.isMember (t : Team) (userId : String) : Bool :=
  t.members.any (fun m => m.userId == userId)

/-- `teamSchema.methods.isAdminOrOwner`: true when `userId` is the owner,
or appears in `members` with role admin or owner. -/
def Team.isAdminOrOwner (t : Team) (userId : String) : Bool :=
  if t.owner == userId then true
  else t.members.any (fun m =>
    m.userId == userId &&
      (m.role == TeamMemberRole.admin || m.role == TeamMemberRole.owner))

/-- `teamSchema.methods.getMemberRole`: owner if `userId` is the owner
field, else the stored role of the matching member entry, else `none`. -/
def Team.getMemberRole (t : Team) (userId : String) : Option TeamMemberRole :=
  if t.owner == userId then some TeamMemberRole.owner
  else match t.members.find? (fun m => m.userId == userId) with
    | some m => some m.role
    | none => none

/-- `TeamController.createTeam`: builds the team with the creator as owner
and a single member entry `{userId, role: OWNER, joinedAt: now}`. -/
def createTeam (name : String) (description : Option String)
    (userId : String) (now : Nat) : Team :=
  { name := name
    description := description
    owner := userId
    members := [{ userId := userId, role := TeamMemberRole.owner, joinedAt := now }] }

/-- A `User` document, restricted to the fields the modelled controllers
read (`_id`, `name`, `email`). -/
structure User where
  id : String
  name : String
  email : String
deriving DecidableEq, Repr

/-- `User.findOne({email})` over the user collection. -/
def findByEmail (users : List User) (email : String) : Option User :=
  users.find? (fun u => u.email == email)

/-- `User.findById` over the user collection. -/
def findById (users : List User) (id : String) : Option User :=
  users.find? (fun u => u.id == id)

/-- `ActivityAction` enum from the activity interface. -/
inductive ActivityAction where
  | created
  | updated
  | deleted
  | assigned
  | unassigned
  | statusChanged
  | memberAdded
  | memberRemoved
  | roleChanged
deriving DecidableEq, Repr

/-- `ActivityEntity` enum from the activity interface. -/
inductive ActivityEntity where
  | task
  | project
  | team
  | user
deriving DecidableEq, Repr

/-- An `{old, new}` pair as stored in the `changes` object of
`TaskController.updateTask`. -/
structure FieldChange (α : Type) where
  old : α
  new : α
deriving DecidableEq, Repr

/-- The `changes` object accumulated by `TaskController.updateTask`: the
controller tracks old/new pairs only for title, priority, status and
assignee (description and dueDate are applied but not tracked). -/
structure Changes where
  title : Option (FieldChange String)
  priority : Option (FieldChange TaskPriority)
  status : Option (FieldChange TaskStatus)
  assignee : Option (FieldChange (Option String))
deriving DecidableEq, Repr

/-- The empty `changes` object. -/
def Changes.empty : Changes :=
  { title := none, priority := none, status := none, assignee := none }

/-- The `changes` object accumulated by `ProjectController.updateProject`:
old/new pairs for name and description (the old description may be
absent). -/
structure ProjectChanges where
  name : Option (FieldChange String)
  description : Option (FieldChange (Option String))
deriving DecidableEq, Repr

/-- The empty project `changes` object. -/
def ProjectChanges.empty : ProjectChanges :=
  { name := none, description := none }

/-- The action-specific `metadata` objects passed to
`ActivityService.logActivity` by the task and project controllers. -/
inductive ActivityMetadata where
  | taskCreated (taskTitle : String) (priority : TaskPriority)
      (status : TaskStatus) (assignee : Option String)
  | taskUpdated (taskTitle : String) (changes : Changes)
  | assignmentChanged (taskTitle : String) (oldAssignee newAssignee : Option String)
  | statusTransition (taskTitle : String) (oldStatus newStatus : TaskStatus)
  | taskDeleted (taskTitle : String)
  | projectCreated (projectName : String)
  | projectUpdated (projectName : String) (changes : ProjectChanges)
  | projectDeleted (projectName : String)
deriving DecidableEq, Repr

/-- An activity audit record as built by `ActivityService.logActivity`. -/
structure Activity where
  userId : String
  teamId : String
  action : ActivityAction
  entity : ActivityEntity
  entityId : String
  metadata : ActivityMetadata
deriving DecidableEq, Repr

/-- The distinct error early-returns of the `TeamController` member
operations. -/
inductive TeamError where
  | forbidden
  | userNotFoundByEmail
  | inviterNotFound
  | conflictAlreadyMember
  | cannotRemoveOwner
  | cannotUpdateOwnerRole
  | ownerCannotLeave
  | memberNotFound
  | notAMember
deriving DecidableEq, Repr

/-- The HTTP status code each `TeamController` error early-return responds
with. -/
def TeamError.httpStatus : TeamError → Nat
  | .forbidden => 403
  | .userNotFoundByEmail => 404
  | .inviterNotFound => 401
  | .conflictAlreadyMember => 409
  | .cannotRemoveOwner => 400
  | .cannotUpdateOwnerRole => 400
  | .ownerCannotLeave => 400
  | .memberNotFound => 404
  | .notAMember => 400

/-- Result of a successful team mutation: the team as saved, together with
the list of `ActivityService.logActivity` calls the controller issued
(the member operations of `TeamController` issue none). Socket emission is
modelled separately on the `SocketService` functions. -/
structure TeamOpResult where
  team : Team
  activities : List Activity
deriving DecidableEq, Repr

/-- `TeamController.inviteMember`: requires admin-or-owner requester, looks
the invitee up by email, rejects an existing member with Conflict, requires
the inviter to resolve by id, then pushes
`{userId, role: role || MEMBER, joinedAt: now}` onto `members`.
No activity record is logged. -/
def inviteMember (users : List User) (team : Team) (requesterId : String)
    (email : String) (role : Option TeamMemberRole) (now : Nat) :
    Except TeamError TeamOpResult :=
  if !(team.isAdminOrOwner requesterId) then .error .forbidden
  else match findByEmail users email with
    | none => .error .userNotFoundByEmail
    | some invitee =>
      if team.isMember invitee.id then .error .conflictAlreadyMember
      else match findById users requesterId with
        | none => .error .inviterNotFound
        | some _ =>
          .ok { team := { team with members := team.members ++
                  [{ userId := invitee.id
                     role := role.getD TeamMemberRole.member
                     joinedAt := now }] }
                activities := [] }

/-- `TeamController.removeMember`: requires admin-or-owner requester,
rejects removal of the owner id with 400, finds the member index with
`findIndex` and removes exactly that entry with `splice(memberIndex, 1)`.
No activity record is logged. -/
def removeMember (team : Team) (requesterId : String) (memberId : String) :
    Except TeamError TeamOpResult :=
  if !(team.isAdminOrOwner requesterId) then .error .forbidden
  else if team.owner == memberId then .error .cannotRemoveOwner
  else match team.members.findIdx? (fun m => m.userId == memberId) with
    | none => .error .memberNotFound
    | some i =>
      .ok { team := { team with members := team.members.eraseIdx i }
            activities := [] }

/-- Replace the role of the first member entry matching `uid`; mirrors
`team.members.find(...)` followed by mutation of the found entry's `role`
field in `TeamController.updateMemberRole`. -/
def setRoleOfFirst : List TeamMember → String → TeamMemberRole → List TeamMember
  | [], _, _ => []
  | m :: rest, uid, r =>
    if m.userId == uid then { m with role := r } :: rest
    else m :: setRoleOfFirst rest uid r

/-- `TeamController.updateMemberRole`: only the strict owner may change
roles, the owner's own role may not be changed (400), the target must be a
member; the first matching entry's role is overwritten.
No activity record is logged. -/
def updateMemberRole (team : Team) (requesterId : String) (memberId : String)
    (role : TeamMemberRole) : Except TeamError TeamOpResult :=
  if !(team.owner == requesterId) then .error .forbidden
  else if team.owner == memberId then .error .cannotUpdateOwnerRole
  else if (team.members.find? (fun m => m.userId == memberId)).isNone then
    .error .memberNotFound
  else
    .ok { team := { team with members := setRoleOfFirst team.members memberId role }
          activities := [] }

/-- The `@IsEnum(TeamMemberRole)` validation of `InviteMemberDto.role` and
`UpdateMemberRoleDto.role`: a role string passes iff it is one of the enum
values `owner`, `admin`, `member` — although the attached error message
reads "Role must be either admin or member". -/
def isValidRoleString (s : String) : Bool :=
  s == "owner" || s == "admin" || s == "member"

/-- The `Task` document, restricted to the fields the modelled controllers
read and write. `assignee = none` stands for a task with no assignee
(JS `undefined`/`null` on the stored document). -/
structure Task where
  title : String
  description : Option String
  priority : TaskPriority
  status : TaskStatus
  dueDate : Option Nat
  assignee : Option String
  projectId : String
  createdBy : String
deriving DecidableEq, Repr

/-- `CreateTaskDto` (`ICreateTaskDto`): title, required priority, optional
description/status/dueDate/assignee, and the owning project id. -/
structure CreateTaskDto where
  title : String
  description : Option String
  priority : TaskPriority
  status : Option TaskStatus
  dueDate : Option Nat
  assignee : Option String
  projectId : String
deriving DecidableEq, Repr

/-- `UpdateTaskDto` (`IUpdateTaskDto`): every field optional. The assignee
field is doubly optional to keep the JS distinction the controller relies
on: `none` = absent (`undefined`), `some none` = explicit `null` (clear the
assignee), `some (some u)` = set to user `u`. -/
structure UpdateTaskDto where
  title : Option String
  description : Option String
  priority : Option TaskPriority
  status : Option TaskStatus
  dueDate : Option Nat
  assignee : Option (Option String)
deriving DecidableEq, Repr

/-- The distinct error early-returns of the `TaskController` operations. -/
inductive TaskError where
  | forbidden
  | projectNotFound
  | teamNotFound
  | taskNotFound
  | assigneeNotFound
  | invalidAssignee
  | invalidTransition (current requested : TaskStatus)
deriving DecidableEq, Repr

/-- The response message of each `TaskController` error early-return; for
an invalid transition it is the template
`Cannot transition from ${task.status} to ${status}` carrying both the
current and the requested status. -/
def TaskError.message : TaskError → String
  | .forbidden => "You are not authorized to perform this action"
  | .projectNotFound => "Project not found"
  | .teamNotFound => "Team not found"
  | .taskNotFound => "Task not found"
  | .assigneeNotFound => "Assignee not found"
  | .invalidAssignee => "Assignee must be a member of the team"
  | .invalidTransition c r =>
      "Cannot transition from " ++ c.wire ++ " to " ++ r.wire

/-- The HTTP status code each `TaskController` error early-return responds
with. -/
def TaskError.httpStatus : TaskError → Nat
  | .forbidden => 403
  | .projectNotFound => 404
  | .teamNotFound => 404
  | .taskNotFound => 404
  | .assigneeNotFound => 404
  | .invalidAssignee => 400
  | .invalidTransition _ _ => 400

/-- Result of a successful task mutation: the task as saved and the list of
`ActivityService.logActivity` calls issued, in call order. -/
structure TaskOpResult where
  task : Task
  activities : List Activity
deriving DecidableEq, Repr

/-- JS truthiness of an optional string value (`if (x)`), as used by the
controller on `taskData.assignee` / `updateData.assignee`: absent,
`null` and the empty string are falsy. -/
def jsTruthyStr : Option String → Bool
  | some s => !(s == "")
  | none => false

/-- The strict inequality `oldAssignee !== updateData.assignee` of
`TaskController.updateTask`, where `oldAssignee` is
`task.assignee?.toString()` (a string or JS `undefined`) and
`updateData.assignee` is a string or JS `null`: the comparison is true
unless both sides are the same string, because `undefined` and `null` are
never strictly equal to each other. -/
def jsAssigneeNeq (oldA : Option String) (newA : Option String) : Bool :=
  match oldA, newA with
  | some a, some b => !(a == b)
  | _, _ => true

/-- The assignee verification shared by `TaskController.createTask` and
`TaskController.updateTask`: when a (truthy) assignee is supplied, it must
resolve by id to an existing user and `team.isMember` of that id must
hold; otherwise 404 / 400 `Invalid Assignee`. A falsy assignee skips the
check. -/
def checkAssignee (users : List User) (team : Team) (assignee : Option String) :
    Except TaskError Unit :=
  if jsTruthyStr assignee then
    match assignee with
    | some a =>
      if (findById users a).isNone then .error .assigneeNotFound
      else if !(team.isMember a) then .error .invalidAssignee
      else .ok ()
    | none => .ok ()
  else .ok ()

/-- `TaskController.createTask`, after the project/team loads: membership
gate, assignee verification, then the task is built from the dto with
`createdBy: userId` (schema default `todo` for a missing status) and a
single `created` activity is logged. -/
def createTask (users : List User) (team : Team) (teamId : String)
    (userId : String) (taskId : String) (dto : CreateTaskDto) :
    Except TaskError TaskOpResult :=
  if !(team.isMember userId) then .error .forbidden
  else match checkAssignee users team dto.assignee with
    | .error e => .error e
    | .ok _ =>
      let task : Task :=
        { title := dto.title
          description := dto.description
          priority := dto.priority
          status := dto.status.getD TaskStatus.todo
          dueDate := dto.dueDate
          assignee := dto.assignee
          projectId := dto.projectId
          createdBy := userId }
      .ok { task := task
            activities :=
              [{ userId := userId, teamId := teamId
                 action := ActivityAction.created, entity := ActivityEntity.task
                 entityId := taskId
                 metadata := ActivityMetadata.taskCreated task.title task.priority
                   task.status task.assignee }] }

/-- The field application of `TaskController.updateTask` (post-gates):
each supplied field overwrites the task's field, and old/new pairs are
accumulated in `changes` for title, priority, status and assignee only. -/
def applyUpdate (task : Task) (dto : UpdateTaskDto) : Task × Changes :=
  let s1 : Task × Changes := match dto.title with
    | some t => ({ task with title := t },
        { Changes.empty with title := some { old := task.title, new := t } })
    | none => (task, Changes.empty)
  let s2 : Task × Changes := match dto.description with
    | some d => ({ s1.1 with description := some d }, s1.2)
    | none => s1
  let s3 : Task × Changes := match dto.priority with
    | some p => ({ s2.1 with priority := p },
        { s2.2 with priority := some { old := task.priority, new := p } })
    | none => s2
  let s4 : Task × Changes := match dto.status with
    | some st => ({ s3.1 with status := st },
        { s3.2 with status := some { old := task.status, new := st } })
    | none => s3
  let s5 : Task × Changes := match dto.dueDate with
    | some d => ({ s4.1 with dueDate := some d }, s4.2)
    | none => s4
  match dto.assignee with
    | some v => ({ s5.1 with assignee := v },
        { s5.2 with assignee := some { old := task.assignee, new := v } })
    | none => s5

/-- The post-gate tail of `TaskController.updateTask`: apply the fields,
save, then log the generic `updated` record, the conditional
`assigned`/`unassigned` record and the conditional `status_changed`
record, in that order. -/
def finishUpdate (teamId userId taskId : String) (task : Task)
    (dto : UpdateTaskDto) : TaskOpResult :=
    let applied := applyUpdate task dto
    let task' := applied.1
    let changes := applied.2
    { task := task'
      activities :=
        [{ userId := userId, teamId := teamId
           action := ActivityAction.updated, entity := ActivityEntity.task
           entityId := taskId
           metadata := ActivityMetadata.taskUpdated task'.title changes }]
        ++ (match dto.assignee with
            | some v =>
              if jsAssigneeNeq task.assignee v then
                [{ userId := userId, teamId := teamId
                   action := if jsTruthyStr v then ActivityAction.assigned
                     else ActivityAction.unassigned
                   entity := ActivityEntity.task, entityId := taskId
                   metadata := ActivityMetadata.assignmentChanged task'.title
                     task.assignee v }]
              else []
            | none => [])
        ++ (match dto.status with
            | some s =>
              if !(task.status == s) then
                [{ userId := userId, teamId := teamId
                   action := ActivityAction.statusChanged
                   entity := ActivityEntity.task, entityId := taskId
                   metadata := ActivityMetadata.statusTransition task'.title
                     task.status s }]
              else []
            | none => []) }

/-- `TaskController.updateTask`, after the task/team loads: membership
gate, assignee verification, transition gate when a status is supplied
(failure returns before `save()`, so nothing is persisted), then the
fields are applied and activities logged by `finishUpdate`. -/
def updateTask (users : List User) (team : Team) (teamId : String)
    (userId : String) (taskId : String) (task : Task) (dto : UpdateTaskDto) :
    Except TaskError TaskOpResult :=
  if !(team.isMember userId) then .error .forbidden
  else match checkAssignee users team (dto.assignee.getD none) with
    | .error e => .error e
    | .ok _ =>
      match dto.status with
      | some s =>
        if !(canTransitionTo task.status s) then
          .error (.invalidTransition task.status s)
        else .ok (finishUpdate teamId userId taskId task dto)
      | none => .ok (finishUpdate teamId userId taskId task dto)

/-- `TaskController.updateTaskStatus`, after the task/team loads:
membership gate, transition gate, then only the status is overwritten.
No `ActivityService.logActivity` call appears in this handler, so the
activity list of a successful run is empty. -/
def updateTaskStatus (team : Team) (userId : String) (task : Task)
    (status : TaskStatus) : Except TaskError TaskOpResult :=
  if !(team.isMember userId) then .error .forbidden
  else if !(canTransitionTo task.status status) then
    .error (.invalidTransition task.status status)
  else
    .ok { task := { task with status := status }, activities := [] }

/-- An `{id, name, email}` reference as embedded in event payloads. -/
structure ActorRef where
  id : String
  name : String
  email : String
deriving DecidableEq, Repr

/-- `TaskAssignedPayload` from the socket interface. -/
structure TaskAssignedPayload where
  taskId : String
  taskTitle : String
  assignee : ActorRef
  teamId : String
  projectId : String
  assignedBy : ActorRef
deriving DecidableEq, Repr

/-- `MemberJoinedPayload` from the socket interface; the nested
`member: {id, name, email, role, joinedAt}` object is flattened into the
`member*` fields. -/
structure MemberJoinedPayload where
  teamId : String
  teamName : String
  memberId : String
  memberName : String
  memberEmail : String
  memberRole : String
  memberJoinedAt : Nat
  addedBy : ActorRef
deriving DecidableEq, Repr

/-- `MemberRemovedPayload` from the socket interface. -/
structure MemberRemovedPayload where
  teamId : String
  teamName : String
  memberId : String
  memberName : String
  removedBy : ActorRef
deriving DecidableEq, Repr

/-- `MemberRoleUpdatedPayload` from the socket interface. -/
structure MemberRoleUpdatedPayload where
  teamId : String
  teamName : String
  member : ActorRef
  oldRole : String
  newRole : String
  updatedBy : ActorRef
deriving DecidableEq, Repr

/-- A single `io.to(room).emit(event, data)` call of the `SocketService`.
`isPersonal = true` records that the `isPersonal: true` field was spread
into this copy of the payload (the team-room copy is the bare payload, so
its flag is `false` = absent); `message` records the extra `message` field
some personal copies carry. -/
structure Emission (π : Type) where
  room : String
  event : String
  payload : π
  isPersonal : Bool
  message : Option String
deriving DecidableEq, Repr

/-- `SocketService.emitTaskAssigned`: when the socket layer is initialized,
emit the payload to `team:{teamId}`, and additionally — when
`payload.assignee?.id` is truthy — emit the payload spread with
`isPersonal: true` to `user:{assignee.id}`. -/
def emitTaskAssigned (initialized : Bool) (p : TaskAssignedPayload) :
    List (Emission TaskAssignedPayload) :=
  if !initialized then []
  else
    [{ room := "team:" ++ p.teamId, event := "task:assigned", payload := p
       isPersonal := false, message := none }]
    ++ (if jsTruthyStr (some p.assignee.id) then
      [{ room := "user:" ++ p.assignee.id, event := "task:assigned", payload := p
         isPersonal := true, message := none }]
    else [])

/-- `SocketService.emitMemberJoined`: team-room copy, then a personal copy
to the new member with `isPersonal: true` and a welcome `message`. -/
def emitMemberJoined (initialized : Bool) (p : MemberJoinedPayload) :
    List (Emission MemberJoinedPayload) :=
  if !initialized then []
  else
    [{ room := "team:" ++ p.teamId, event := "member:joined", payload := p
       isPersonal := false, message := none },
     { room := "user:" ++ p.memberId, event := "member:joined", payload := p
       isPersonal := true
       message := some ("You have been added to " ++ p.teamName) }]

/-- `SocketService.emitMemberRemoved`: team-room copy, then a personal copy
to the removed member with `isPersonal: true` and a `message`. -/
def emitMemberRemoved (initialized : Bool) (p : MemberRemovedPayload) :
    List (Emission MemberRemovedPayload) :=
  if !initialized then []
  else
    [{ room := "team:" ++ p.teamId, event := "member:removed", payload := p
       isPersonal := false, message := none },
     { room := "user:" ++ p.memberId, event := "member:removed", payload := p
       isPersonal := true
       message := some ("You have been removed from " ++ p.teamName) }]

/-- `SocketService.emitMemberRoleUpdated`: team-room copy, then a personal
copy to the affected member with `isPersonal: true` and a `message`. -/
def emitMemberRoleUpdated (initialized : Bool) (p : MemberRoleUpdatedPayload) :
    List (Emission MemberRoleUpdatedPayload) :=
  if !initialized then []
  else
    [{ room := "team:" ++ p.teamId, event := "member:role_updated", payload := p
       isPersonal := false, message := none },
     { room := "user:" ++ p.member.id, event := "member:role_updated", payload := p
       isPersonal := true
       message := some ("Your role in " ++ p.teamName ++ " has been changed from "
         ++ p.oldRole ++ " to " ++ p.newRole) }]

/-- Projection helpers over operation results: the team as persisted after
a member operation (an error early-return leaves the stored team as it
was). -/
def persistedTeam (team : Team) (r : Except TeamError TeamOpResult) : Team :=
  match r with
  | .ok res => res.team
  | .error _ => team

/-- The task as persisted after a task operation (an error early-return
fires before `save()`, leaving the stored task as it was). -/
def persistedTask (task : Task) (r : Except TaskError TaskOpResult) : Task :=
  match r with
  | .ok res => res.task
  | .error _ => task

/-- The `ActivityService.logActivity` calls performed by a task operation:
the logging happens after `save()`, so an error early-return performs
none. -/
def taskOpActivities (r : Except TaskError TaskOpResult) : List Activity :=
  match r with
  | .ok res => res.activities
  | .error _ => []

/-- Whether a task operation ran to completion. -/
def taskOpSucceeded (r : Except TaskError TaskOpResult) : Bool :=
  match r with
  | .ok _ => true
  | .error _ => false

/-! ## Theorems settling the claims -/

/-- The state machine never allows a status to transition to itself. -/
theorem canTransitionTo_self_false (s : TaskStatus) : canTransitionTo s s = false := by
  cases s <;> rfl

/-- C1: `canTransitionTo` returns true exactly on the pairs of the
adjacency table todo→{in_progress, done}, in_progress→{todo, review, done},
review→{in_progress, done}, done→{todo, in_progress, review}; every pair
not listed, including every same-status pair, returns false. -/
theorem C1_transition_table :
    (∀ c r : TaskStatus,
      canTransitionTo c r = true ↔
        ((c = TaskStatus.todo ∧
            (r = TaskStatus.inProgress ∨ r = TaskStatus.done)) ∨
         (c = TaskStatus.inProgress ∧
            (r = TaskStatus.todo ∨ r = TaskStatus.review ∨ r = TaskStatus.done)) ∨
         (c = TaskStatus.review ∧
            (r = TaskStatus.inProgress ∨ r = TaskStatus.done)) ∨
         (c = TaskStatus.done ∧
            (r = TaskStatus.todo ∨ r = TaskStatus.inProgress ∨ r = TaskStatus.review)))) ∧
    (∀ s : TaskStatus, canTransitionTo s s = false) := by
  constructor
  · intro c r
    cases c <;> cases r <;> simp [canTransitionTo, transitions]
  · exact canTransitionTo_self_false

/-- A team whose owner has no entry in the `members` array. -/
def ownerOnlyTeam : Team :=
  { name := "T", description := none, owner := "u1", members := [] }

/-- C2, counterexample: for the team with owner `u1` and an empty member
list, `isMember` applied to the owner returns `false`, although the claim's
predicate (owner or listed member) holds — `isMember` never consults the
`owner` field, so the claimed equivalence fails. -/
theorem C2_counterexample :
    ownerOnlyTeam.isMember ownerOnlyTeam.owner = false ∧
    (ownerOnlyTeam.owner == ownerOnlyTeam.owner ||
      ownerOnlyTeam.members.any (fun m => m.userId == ownerOnlyTeam.owner)) = true :=
  ⟨rfl, rfl⟩

/-- C2, amended: `isMember(team, userId)` is true iff `userId` appears in
`team.members`; the `owner` field is not consulted. The owner of a team
built by `createTeam` nevertheless satisfies `isMember`, because
`createTeam` inserts the owner into `members` with role owner. -/
theorem C2_isMember_members_only :
    (∀ (t : Team) (u : String),
      t.isMember u = true ↔ ∃ m ∈ t.members, m.userId = u) ∧
    (∀ (name : String) (description : Option String) (userId : String) (now : Nat),
      (createTeam name description userId now).isMember userId = true) := by
  constructor
  · intro t u
    simp [Team.isMember, List.any_eq_true]
  · intro name description userId now
    simp [createTeam, Team.isMember]

/-- C3: for every team and every admin-or-owner requester, removing the
owner id fails with the 400 `Cannot remove team owner` early-return and the
persisted team — member list included — is unchanged. -/
theorem C3_cannot_remove_owner (team : Team) (requesterId : String)
    (hauth : team.isAdminOrOwner requesterId = true) :
    removeMember team requesterId team.owner =
      Except.error TeamError.cannotRemoveOwner ∧
    TeamError.cannotRemoveOwner.httpStatus = 400 ∧
    persistedTeam team (removeMember team requesterId team.owner) = team := by
  have h : removeMember team requesterId team.owner =
      Except.error TeamError.cannotRemoveOwner := by
    simp [removeMember, hauth]
  exact ⟨h, rfl, by rw [h]; rfl⟩

/-- A concrete two-member team for the C3 witness. -/
def c3team : Team :=
  { name := "T", description := none, owner := "u1"
    members :=
      [{ userId := "u1", role := TeamMemberRole.owner, joinedAt := 0 },
       { userId := "u2", role := TeamMemberRole.member, joinedAt := 1 }] }

/-- Witness for C3 at the concrete team `c3team` with the owner as
requester. -/
theorem C3_witness :
    removeMember c3team "u1" c3team.owner =
      Except.error TeamError.cannotRemoveOwner ∧
    TeamError.cannotRemoveOwner.httpStatus = 400 ∧
    persistedTeam c3team (removeMember c3team "u1" c3team.owner) = c3team :=
  C3_cannot_remove_owner c3team "u1" rfl

/-- C4: whenever a task update supplies a status not reachable from the
task's current status — whether through the general field update or the
dedicated status update — the operation fails with the invalid-transition
error whose message carries both statuses, and nothing (no field of the
update) is persisted. The hypotheses say the request reaches the
transition gate: the requester is a member and the assignee verification
(which the general update runs first) passes. -/
theorem C4_invalid_transition (users : List User) (team : Team)
    (teamId userId taskId : String) (task : Task) (dto : UpdateTaskDto)
    (s : TaskStatus)
    (hmem : team.isMember userId = true)
    (hassignee : checkAssignee users team (dto.assignee.getD none) = Except.ok ())
    (hs : dto.status = some s)
    (hbad : canTransitionTo task.status s = false) :
    updateTask users team teamId userId taskId task dto =
      Except.error (TaskError.invalidTransition task.status s) ∧
    updateTaskStatus team userId task s =
      Except.error (TaskError.invalidTransition task.status s) ∧
    (TaskError.invalidTransition task.status s).message =
      "Cannot transition from " ++ task.status.wire ++ " to " ++ s.wire ∧
    (TaskError.invalidTransition task.status s).httpStatus = 400 ∧
    persistedTask task (updateTask users team teamId userId taskId task dto) = task ∧
    taskOpActivities (updateTask users team teamId userId taskId task dto) = [] ∧
    persistedTask task (updateTaskStatus team userId task s) = task := by
  have h1 : updateTask users team teamId userId taskId task dto =
      Except.error (TaskError.invalidTransition task.status s) := by
    simp [updateTask, hmem, hassignee, hs, hbad]
  have h2 : updateTaskStatus team userId task s =
      Except.error (TaskError.invalidTransition task.status s) := by
    simp [updateTaskStatus, hmem, hbad]
  exact ⟨h1, h2, rfl, rfl, by rw [h1]; rfl, by rw [h1]; rfl, by rw [h2]; rfl⟩

/-- A task in review for the C4 witness. -/
def c4task : Task :=
  { title := "K", description := none, priority := TaskPriority.medium
    status := TaskStatus.review, dueDate := none, assignee := none
    projectId := "p1", createdBy := "u1" }

/-- An update request moving the C4 witness task review → todo, an edge
absent from the adjacency table. -/
def c4dto : UpdateTaskDto :=
  { title := none, description := none, priority := none
    status := some TaskStatus.todo, dueDate := none, assignee := none }

/-- Witness for C4: member `u2` of `c3team` requests review → todo. -/
theorem C4_witness :
    updateTask [] c3team "tm" "u2" "tk" c4task c4dto =
      Except.error (TaskError.invalidTransition c4task.status TaskStatus.todo) ∧
    updateTaskStatus c3team "u2" c4task TaskStatus.todo =
      Except.error (TaskError.invalidTransition c4task.status TaskStatus.todo) ∧
    (TaskError.invalidTransition c4task.status TaskStatus.todo).message =
      "Cannot transition from " ++ c4task.status.wire ++ " to " ++ TaskStatus.todo.wire ∧
    (TaskError.invalidTransition c4task.status TaskStatus.todo).httpStatus = 400 ∧
    persistedTask c4task (updateTask [] c3team "tm" "u2" "tk" c4task c4dto) = c4task ∧
    taskOpActivities (updateTask [] c3team "tm" "u2" "tk" c4task c4dto) = [] ∧
    persistedTask c4task (updateTaskStatus c3team "u2" c4task TaskStatus.todo) = c4task :=
  C4_invalid_transition [] c3team "tm" "u2" "tk" c4task c4dto TaskStatus.todo
    rfl rfl rfl rfl

/-- The user collection backing the concrete team scenarios. -/
def c5users : List User :=
  [{ id := "u1", name := "Alice", email := "a@x.io" },
   { id := "u2", name := "Bob", email := "b@x.io" },
   { id := "u3", name := "Cara", email := "c@x.io" }]

/-- C6: a successful general field update that changes both the status and
the assignee logs exactly three distinct activity records — the generic
`updated` record carrying the old/new `changes` map, an
`assigned`/`unassigned` record carrying the old and new assignee, and a
`status_changed` record carrying the old and new status — never a single
collapsed record. -/
theorem C6_three_records (users : List User) (team : Team)
    (teamId userId taskId : String) (task : Task) (dto : UpdateTaskDto)
    (v : Option String) (s : TaskStatus) (r : TaskOpResult)
    (hok : updateTask users team teamId userId taskId task dto = Except.ok r)
    (hs : dto.status = some s)
    (ha : dto.assignee = some v)
    (hneq : jsAssigneeNeq task.assignee v = true) :
    r.activities =
      [{ userId := userId, teamId := teamId, action := ActivityAction.updated
         entity := ActivityEntity.task, entityId := taskId
         metadata := ActivityMetadata.taskUpdated (applyUpdate task dto).1.title
           (applyUpdate task dto).2 },
       { userId := userId, teamId := teamId
         action := if jsTruthyStr v then ActivityAction.assigned
           else ActivityAction.unassigned
         entity := ActivityEntity.task, entityId := taskId
         metadata := ActivityMetadata.assignmentChanged (applyUpdate task dto).1.title
           task.assignee v },
       { userId := userId, teamId := teamId, action := ActivityAction.statusChanged
         entity := ActivityEntity.task, entityId := taskId
         metadata := ActivityMetadata.statusTransition (applyUpdate task dto).1.title
           task.status s }] ∧
    r.activities.length = 3 := by
  unfold updateTask at hok
  split at hok
  · exact absurd hok (by simp)
  · split at hok
    · exact absurd hok (by simp)
    · simp only [hs] at hok
      split at hok
      · exact absurd hok (by simp)
      · rename_i hcond
        have htrans : canTransitionTo task.status s = true := by
          revert hcond
          cases canTransitionTo task.status s <;> simp
        have hss : (task.status == s) = false := by
          cases hbe : task.status == s
          · rfl
          · exfalso
            have heq : task.status = s := by
              exact eq_of_beq hbe
            rw [heq, canTransitionTo_self_false] at htrans
            exact Bool.noConfusion htrans
        cases hok
        have hact : (finishUpdate teamId userId taskId task dto).activities =
            [{ userId := userId, teamId := teamId, action := ActivityAction.updated
               entity := ActivityEntity.task, entityId := taskId
               metadata := ActivityMetadata.taskUpdated (applyUpdate task dto).1.title
                 (applyUpdate task dto).2 },
             { userId := userId, teamId := teamId
               action := if jsTruthyStr v then ActivityAction.assigned
                 else ActivityAction.unassigned
               entity := ActivityEntity.task, entityId := taskId
               metadata := ActivityMetadata.assignmentChanged
                 (applyUpdate task dto).1.title task.assignee v },
             { userId := userId, teamId := teamId
               action := ActivityAction.statusChanged
               entity := ActivityEntity.task, entityId := taskId
               metadata := ActivityMetadata.statusTransition
                 (applyUpdate task dto).1.title task.status s }] := by
          simp only [finishUpdate, ha, hs, hneq, hss]
          simp
        exact ⟨hact, by rw [hact]; rfl⟩

/-- A task with an assignee for the C6 witness. -/
def c6task : Task :=
  { title := "K", description := none, priority := TaskPriority.medium
    status := TaskStatus.todo, dueDate := none, assignee := none
    projectId := "p1", createdBy := "u1" }

/-- An update request changing both status (todo → in_progress) and
assignee (none → u2) for the C6 witness. -/
def c6dto : UpdateTaskDto :=
  { title := none, description := none, priority := none
    status := some TaskStatus.inProgress, dueDate := none
    assignee := some (some "u2") }

/-- Witness for C6: on `c3team`, member `u1` updates `c6task` with
`c6dto`; the operation succeeds and logs the three records. -/
theorem C6_witness :
    ∃ r : TaskOpResult,
      updateTask c5users c3team "tm" "u1" "tk" c6task c6dto = Except.ok r ∧
      r.activities.map (fun a => a.action) =
        [ActivityAction.updated, ActivityAction.assigned,
         ActivityAction.statusChanged] ∧
      r.activities.length = 3 := by
  have h := C6_three_records c5users c3team "tm" "u1" "tk" c6task c6dto
    (some "u2") TaskStatus.inProgress _ rfl rfl rfl rfl
  exact ⟨_, rfl, by rw [h.1]; rfl, h.2⟩

/-- C7: a task creation or general update that sets the assignee to a user
who does not exist fails with the 404 assignee-not-found early-return, and
one that sets it to an existing non-member fails with the 400
`Assignee must be a member of the team` early-return; in both cases the
operation returns before `save()`, so the task is unchanged (in particular
unassigned for a creation) and no activity is recorded. -/
theorem C7_invalid_assignee (users : List User) (team : Team)
    (teamId userId taskId : String) (task : Task)
    (dto : UpdateTaskDto) (cdto : CreateTaskDto) (a : String)
    (hmem : team.isMember userId = true)
    (hupd : dto.assignee = some (some a))
    (hcre : cdto.assignee = some a)
    (hA : (a == "") = false)
    (hbad : findById users a = none ∨ team.isMember a = false) :
    updateTask users team teamId userId taskId task dto =
      Except.error (if (findById users a).isNone then TaskError.assigneeNotFound
        else TaskError.invalidAssignee) ∧
    persistedTask task (updateTask users team teamId userId taskId task dto) =
      task ∧
    taskOpActivities (updateTask users team teamId userId taskId task dto) = [] ∧
    createTask users team teamId userId taskId cdto =
      Except.error (if (findById users a).isNone then TaskError.assigneeNotFound
        else TaskError.invalidAssignee) ∧
    taskOpSucceeded (createTask users team teamId userId taskId cdto) = false ∧
    taskOpActivities (createTask users team teamId userId taskId cdto) = [] := by
  have hchk : checkAssignee users team (some a) =
      Except.error (if (findById users a).isNone then TaskError.assigneeNotFound
        else TaskError.invalidAssignee) := by
    rcases hbad with hb | hb
    · simp [checkAssignee, jsTruthyStr, hA, hb]
    · rcases hfi : findById users a with _ | u
      · simp [checkAssignee, jsTruthyStr, hA, hfi]
      · simp [checkAssignee, jsTruthyStr, hA, hfi, hb]
  have h1 : updateTask users team teamId userId taskId task dto =
      Except.error (if (findById users a).isNone then TaskError.assigneeNotFound
        else TaskError.invalidAssignee) := by
    simp [updateTask, hmem, hupd, hchk]
  have h2 : createTask users team teamId userId taskId cdto =
      Except.error (if (findById users a).isNone then TaskError.assigneeNotFound
        else TaskError.invalidAssignee) := by
    simp [createTask, hmem, hcre, hchk]
  exact ⟨h1, by rw [h1]; rfl, by rw [h1]; rfl, h2, by rw [h2]; rfl, by rw [h2]; rfl⟩

/-- An update request assigning the task to the nonexistent user `u9`. -/
def c7dto : UpdateTaskDto :=
  { title := none, description := none, priority := none
    status := none, dueDate := none, assignee := some (some "u9") }

/-- A creation request assigning the task to the nonexistent user `u9`. -/
def c7cdto : CreateTaskDto :=
  { title := "K", description := none, priority := TaskPriority.medium
    status := none, dueDate := none, assignee := some "u9", projectId := "p1" }

/-- Witness for C7: `u9` is not in the user collection, so creation and
update both fail with the assignee-not-found error and leave no trace. -/
theorem C7_witness :
    updateTask c5users c3team "tm" "u1" "tk" c4task c7dto =
      Except.error (if (findById c5users "u9").isNone then
        TaskError.assigneeNotFound else TaskError.invalidAssignee) ∧
    persistedTask c4task (updateTask c5users c3team "tm" "u1" "tk" c4task c7dto) =
      c4task ∧
    taskOpActivities (updateTask c5users c3team "tm" "u1" "tk" c4task c7dto) = [] ∧
    createTask c5users c3team "tm" "u1" "tk" c7cdto =
      Except.error (if (findById c5users "u9").isNone then
        TaskError.assigneeNotFound else TaskError.invalidAssignee) ∧
    taskOpSucceeded (createTask c5users c3team "tm" "u1" "tk" c7cdto) = false ∧
    taskOpActivities (createTask c5users c3team "tm" "u1" "tk" c7cdto) = [] :=
  C7_invalid_assignee c5users c3team "tm" "u1" "tk" c4task c7dto c7cdto "u9"
    rfl rfl rfl rfl (Or.inl rfl)

/-- C8: each of the four personally-addressed event kinds (member-removed,
task-assigned, member-joined, member-role-updated) is emitted exactly
twice: once to the team room `team:{teamId}` as the bare payload (no
`isPersonal` flag), and once to the personal room `user:{affectedUserId}`
of the affected user with `isPersonal: true`. -/
theorem C8_personal_fanout (p : MemberRemovedPayload) (q : TaskAssignedPayload)
    (j : MemberJoinedPayload) (u : MemberRoleUpdatedPayload)
    (hq : (q.assignee.id == "") = false) :
    emitMemberRemoved true p =
      [{ room := "team:" ++ p.teamId, event := "member:removed", payload := p
         isPersonal := false, message := none },
       { room := "user:" ++ p.memberId, event := "member:removed", payload := p
         isPersonal := true
         message := some ("You have been removed from " ++ p.teamName) }] ∧
    emitTaskAssigned true q =
      [{ room := "team:" ++ q.teamId, event := "task:assigned", payload := q
         isPersonal := false, message := none },
       { room := "user:" ++ q.assignee.id, event := "task:assigned", payload := q
         isPersonal := true, message := none }] ∧
    emitMemberJoined true j =
      [{ room := "team:" ++ j.teamId, event := "member:joined", payload := j
         isPersonal := false, message := none },
       { room := "user:" ++ j.memberId, event := "member:joined", payload := j
         isPersonal := true
         message := some ("You have been added to " ++ j.teamName) }] ∧
    emitMemberRoleUpdated true u =
      [{ room := "team:" ++ u.teamId, event := "member:role_updated", payload := u
         isPersonal := false, message := none },
       { room := "user:" ++ u.member.id, event := "member:role_updated", payload := u
         isPersonal := true
         message := some ("Your role in " ++ u.teamName ++ " has been changed from "
           ++ u.oldRole ++ " to " ++ u.newRole) }] := by
  refine ⟨rfl, ?_, rfl, rfl⟩
  simp [emitTaskAssigned, jsTruthyStr, hq]

/-- Concrete member-removed payload for the C8 witness. -/
def c8removed : MemberRemovedPayload :=
  { teamId := "t1", teamName := "T", memberId := "u2", memberName := "Bob"
    removedBy := { id := "u1", name := "Alice", email := "a@x.io" } }

/-- Concrete task-assigned payload for the C8 witness. -/
def c8assigned : TaskAssignedPayload :=
  { taskId := "k1", taskTitle := "K"
    assignee := { id := "u2", name := "Bob", email := "b@x.io" }
    teamId := "t1", projectId := "p1"
    assignedBy := { id := "u1", name := "Alice", email := "a@x.io" } }

/-- Concrete member-joined payload for the C8 witness. -/
def c8joined : MemberJoinedPayload :=
  { teamId := "t1", teamName := "T", memberId := "u3", memberName := "Cara"
    memberEmail := "c@x.io", memberRole := "member", memberJoinedAt := 5
    addedBy := { id := "u1", name := "Alice", email := "a@x.io" } }

/-- Concrete member-role-updated payload for the C8 witness. -/
def c8role : MemberRoleUpdatedPayload :=
  { teamId := "t1", teamName := "T"
    member := { id := "u2", name := "Bob", email := "b@x.io" }
    oldRole := "member", newRole := "admin"
    updatedBy := { id := "u1", name := "Alice", email := "a@x.io" } }

/-- Witness for C8 on the concrete payloads. -/
theorem C8_witness :
    emitMemberRemoved true c8removed =
      [{ room := "team:" ++ c8removed.teamId, event := "member:removed"
         payload := c8removed, isPersonal := false, message := none },
       { room := "user:" ++ c8removed.memberId, event := "member:removed"
         payload := c8removed, isPersonal := true
         message := some ("You have been removed from " ++ c8removed.teamName) }] ∧
    emitTaskAssigned true c8assigned =
      [{ room := "team:" ++ c8assigned.teamId, event := "task:assigned"
         payload := c8assigned, isPersonal := false, message := none },
       { room := "user:" ++ c8assigned.assignee.id, event := "task:assigned"
         payload := c8assigned, isPersonal := true, message := none }] ∧
    emitMemberJoined true c8joined =
      [{ room := "team:" ++ c8joined.teamId, event := "member:joined"
         payload := c8joined, isPersonal := false, message := none },
       { room := "user:" ++ c8joined.memberId, event := "member:joined"
         payload := c8joined, isPersonal := true
         message := some ("You have been added to " ++ c8joined.teamName) }] ∧
    emitMemberRoleUpdated true c8role =
      [{ room := "team:" ++ c8role.teamId, event := "member:role_updated"
         payload := c8role, isPersonal := false, message := none },
       { room := "user:" ++ c8role.member.id, event := "member:role_updated"
         payload := c8role, isPersonal := true
         message := some ("Your role in " ++ c8role.teamName
           ++ " has been changed from " ++ c8role.oldRole ++ " to "
           ++ c8role.newRole) }] :=
  C8_personal_fanout c8removed c8assigned c8joined c8role rfl

/-- A fresh team with only its owner, for the C9 invite scenario. -/
def c9team : Team :=
  { name := "T9", description := none, owner := "u1"
    members := [{ userId := "u1", role := TeamMemberRole.owner, joinedAt := 0 }] }

/-- C9: the role enum validation admits the string `owner` (despite its
"admin or member" error message), `inviteMember` accepts role owner for a
user distinct from the team owner, and `updateMemberRole` likewise; the
resulting teams carry a second member entry with role owner, for which
`isAdminOrOwner` answers true — single-ownership is not enforced by these
operations. -/
theorem C9_owner_role_not_enforced :
    isValidRoleString "owner" = true ∧
    (∃ r : TeamOpResult,
      inviteMember c5users c9team "u1" "b@x.io" (some TeamMemberRole.owner) 7 =
        Except.ok r ∧
      r.team.members.any (fun m => m.userId == "u2" &&
        m.role == TeamMemberRole.owner) = true ∧
      r.team.isAdminOrOwner "u2" = true ∧
      (r.team.owner == "u2") = false) ∧
    (∃ r : TeamOpResult,
      updateMemberRole c3team "u1" "u2" TeamMemberRole.owner = Except.ok r ∧
      r.team.members.any (fun m => m.userId == "u2" &&
        m.role == TeamMemberRole.owner) = true ∧
      r.team.isAdminOrOwner "u2" = true ∧
      (r.team.owner == "u2") = false) :=
  ⟨rfl, ⟨_, rfl, rfl, rfl, rfl⟩, ⟨_, rfl, rfl, rfl, rfl⟩⟩

/-- A successful `findIndex` + `splice(i, 1)` pair removes exactly the
first entry satisfying the predicate: the list splits as
`pre ++ x :: post` with no hit in `pre`, `findIdx?` returns `pre.length`,
and erasing that index leaves `pre ++ post`. -/
theorem findIdx_eraseIdx_decomp {α : Type} (p : α → Bool) :
    ∀ l : List α, l.any p = true →
      ∃ pre x post, l = pre ++ x :: post ∧ p x = true ∧
        (∀ y ∈ pre, p y = false) ∧
        l.findIdx? p = some pre.length ∧
        l.eraseIdx pre.length = pre ++ post := by
  intro l hl
  induction l with
  | nil => simp at hl
  | cons a rest ih =>
    cases hpa : p a
    · have hrest : rest.any p = true := by
        simp only [List.any_cons, hpa, Bool.false_or] at hl
        exact hl
      obtain ⟨pre, x, post, hdec, hpx, hpre, hfind, herase⟩ := ih hrest
      refine ⟨a :: pre, x, post, by simp [hdec], hpx, ?_, ?_, ?_⟩
      · intro y hy
        rcases List.mem_cons.mp hy with hya | hy2
        · rw [hya]; exact hpa
        · exact hpre y hy2
      · simp [List.findIdx?_cons, hpa, List.findIdx?_succ, hfind]
      · simp [List.eraseIdx_cons_succ, herase]
    · refine ⟨[], a, rest, rfl, hpa, by simp, ?_, rfl⟩
      simp [List.findIdx?_cons, hpa]

/-- C10: for an authorized requester and a listed member distinct from the
owner, `removeMember` succeeds and removes exactly the first member entry
whose userId matches; the team's name, description, owner and every other
member entry (with role and joinedAt) are returned unchanged, and no
activity is logged. -/
theorem C10_remove_member_frame (team : Team) (requesterId memberId : String)
    (hauth : team.isAdminOrOwner requesterId = true)
    (howner : (team.owner == memberId) = false)
    (hmem : team.members.any (fun m => m.userId == memberId) = true) :
    ∃ pre m post,
      team.members = pre ++ m :: post ∧
      m.userId = memberId ∧
      (∀ x ∈ pre, (x.userId == memberId) = false) ∧
      removeMember team requesterId memberId =
        Except.ok { team := { name := team.name, description := team.description
                              owner := team.owner, members := pre ++ post }
                    activities := [] } := by
  obtain ⟨pre, m, post, hdec, hpm, hpre, hfind, herase⟩ :=
    findIdx_eraseIdx_decomp (fun m => m.userId == memberId) team.members hmem
  refine ⟨pre, m, post, hdec, eq_of_beq hpm, hpre, ?_⟩
  simp [removeMember, hauth, howner, hfind, herase]

/-- Witness for C10: removing `u2` from `c3team` as the owner `u1`. -/
theorem C10_witness :
    ∃ pre m post,
      c3team.members = pre ++ m :: post ∧
      m.userId = "u2" ∧
      (∀ x ∈ pre, (x.userId == "u2") = false) ∧
      removeMember c3team "u1" "u2" =
        Except.ok { team := { name := c3team.name, description := c3team.description
                              owner := c3team.owner, members := pre ++ post }
                    activities := [] } :=
  C10_remove_member_frame c3team "u1" "u2" rfl rfl rfl

end TaskMgmt
